import Mathlib

/-!
Verification development for the OpenCEP evaluation-tree engine and its adaptive
optimizer.  The definitions below are a shallow embedding of the Python sources:
`tree/KleeneClosureNode.py`, `optimizer/Optimizer.py`, `misc/ConsumptionPolicies.py`
and `misc/DefaultConfig.py`.  Stateful methods are embedded in state-passing style:
each method takes the object's state and returns the updated state together with the
method's result; a raised exception is embedded as `Except.error` (or as `none` for a
result that is produced inside a loop that can raise).
-/

namespace OpenCEP

/-- Modelled from the spec: `recursive_powerset_generator` (from `misc/Utils.py`, whose
source is not available here) recursively generates all subsets of the given list whose
size does not exceed the given cap, the cap being applied during generation rather than
by post-filtering.  A negative cap therefore admits no subset at all. -/
def recursive_powerset_generator {α : Type} : List α → Int → List (List α)
  | [], maxSetSize => if 0 ≤ maxSetSize then [[]] else []
  | x :: xs, maxSetSize =>
      recursive_powerset_generator xs maxSetSize ++
        (recursive_powerset_generator xs (maxSetSize - 1)).map (fun s => x :: s)

/-- Embedding of `KleeneClosureNode.__create_child_matches_powerset`
(`tree/KleeneClosureNode.py`): given the child's currently stored partial matches
(time-ordered, the triggering one last), generate all subsets of all but the last
element capped at `actual_max_size - 1`, append the last element to each, and
post-filter by the minimal size limit.  `max_size = none` embeds Python's `None`
(no configured maximal size). -/
def create_child_matches_powerset {α : Type} (min_size : Nat) (max_size : Option Nat)
    (child_partial_matches : List α) : List (List α) :=
  match child_partial_matches.getLast? with
  | none => []
  | some last_partial_match =>
      let actual_max_size : Nat := max_size.getD child_partial_matches.length
      let generated_powerset :=
        recursive_powerset_generator child_partial_matches.dropLast
          ((actual_max_size : Int) - 1)
      let result_powerset := generated_powerset.map (fun item => item ++ [last_partial_match])
      result_powerset.filter (fun item => decide (min_size ≤ item.length))

/-- Embedding of `base/PatternMatch.py`'s record as used by the Kleene-closure node:
an ordered event list together with the first and last timestamps it spans.
Events are kept abstract (their payloads are only ever handed to a condition). -/
structure PatternMatch (Ev : Type) where
  events : List Ev
  first_timestamp : Int
  last_timestamp : Int

/-- Embedding of a `KleeneClosureNode` (`tree/KleeneClosureNode.py`).  The child node is
represented by its time-ordered partial-match store; `child = none` embeds a node whose
sole child reference is absent.  The node's condition (installed by `apply_formula`) is
kept abstract as a boolean predicate over the flattened event list, and the parent
back-reference is irrelevant to the embedded method and omitted. -/
structure KleeneClosureNode (Ev : Type) where
  sliding_window : Int
  min_size : Nat
  max_size : Option Nat
  condition : List Ev → Bool
  child : Option (List (PatternMatch Ev))

/-- Modelled from the spec: `Node.clean_expired_partial_matches` (the generic node code
is not available here).  Per the spec, on a new-match notification a node purges from
its store all partial matches whose `last_timestamp` is older than
`new_match.last_timestamp - sliding_window`. -/
def clean_expired_partial_matches {Ev : Type} (sliding_window : Int)
    (store : List (PatternMatch Ev)) (last_timestamp : Int) : List (PatternMatch Ev) :=
  store.filter (fun pm => decide (last_timestamp - sliding_window ≤ pm.last_timestamp))

/-- Embedding of `KleeneClosureNode.__partial_match_set_to_event_list`: concatenates the
events of all partial matches of the set into a single list (the computed min/max
timestamps are discarded by the Python code, which returns only the event list). -/
def partial_match_set_to_event_list {Ev : Type}
    (partial_match_set : List (PatternMatch Ev)) : List Ev :=
  (partial_match_set.map PatternMatch.events).flatten

/-- Embedding of `KleeneClosureNode.handle_new_partial_match`
(`tree/KleeneClosureNode.py`).  A missing child raises (`Except.error`) before anything
else happens.  Otherwise the last partial match of the child store is the triggering one
(this is `get_last_unhandled_partial_match`, per the method's documented assumption; an
empty store, impossible under that assumption, is embedded as an error as well), expired
child matches are purged, the admissible subsets are generated, and each one is
flattened, validated against the node's condition and, on success, propagated.  The
result is the updated node state together with the list of propagated event lists. -/
def handle_new_partial_match {Ev : Type} (node : KleeneClosureNode Ev) :
    Except String (KleeneClosureNode Ev × List (List Ev)) :=
  match node.child with
  | none => .error ""
  | some child_store =>
      match child_store.getLast? with
      | none => .error "no unhandled partial match"
      | some new_partial_match =>
          let cleaned_store := clean_expired_partial_matches node.sliding_window
            child_store new_partial_match.last_timestamp
          let child_matches_powerset :=
            create_child_matches_powerset node.min_size node.max_size cleaned_store
          let propagated :=
            (child_matches_powerset.map partial_match_set_to_event_list).filter
              node.condition
          .ok ({ node with child := some cleaned_store }, propagated)

/-- Embedding of `plan/TreeCostModels.py`'s enumeration as referenced by
`misc/DefaultConfig.py`; only the default member is named in the sources at hand. -/
inductive TreeCostModels where
  | INTERMEDIATE_RESULTS_TREE_COST_MODEL : TreeCostModels
deriving DecidableEq

/-- Embedding of `plan/TreePlanBuilderTypes.py`'s enumeration as referenced by
`optimizer/Optimizer.py` and `misc/DefaultConfig.py`; members other than
`TRIVIAL_LEFT_DEEP_TREE` are abstracted by an index. -/
inductive TreePlanBuilderTypes where
  | TRIVIAL_LEFT_DEEP_TREE : TreePlanBuilderTypes
  | OTHER_BUILDER_TYPE : Nat → TreePlanBuilderTypes
deriving DecidableEq

/-- Embedding of `DEFAULT_TREE_PLAN_BUILDER` from `misc/DefaultConfig.py`. -/
def DEFAULT_TREE_PLAN_BUILDER : TreePlanBuilderTypes :=
  TreePlanBuilderTypes.TRIVIAL_LEFT_DEEP_TREE

/-- Embedding of `DEFAULT_TREE_COST_MODEL` from `misc/DefaultConfig.py`. -/
def DEFAULT_TREE_COST_MODEL : TreeCostModels :=
  TreeCostModels.INTERMEDIATE_RESULTS_TREE_COST_MODEL

/-- Embedding of a tree-plan builder object: either a `TrivialLeftDeepTreeBuilder`
constructed over a cost model (the only builder `optimizer/Optimizer.py` constructs
itself) or some other externally injected builder, abstracted by an index.  What a
builder's `build_tree_plan` computes is external to the sources at hand and is passed
to the optimizer methods as an abstract function. -/
inductive TreePlanBuilder where
  | TrivialLeftDeepTreeBuilder : TreeCostModels → TreePlanBuilder
  | other_builder : Nat → TreePlanBuilder
deriving DecidableEq

/-- Embedding of the `Pattern` interface consumed by `optimizer/Optimizer.py`: only the
`statistics` attribute is read there (`none` embeds Python's `None`). -/
structure Pattern (Stats : Type) where
  statistics : Option Stats

/-- Embedding of the static method `Optimizer.build_non_prior_tree_plan_builder`
(`optimizer/Optimizer.py`).  The module-level configurable
`DefaultConfig.DEFAULT_TREE_PLAN_BUILDER` is passed explicitly as
`default_tree_plan_builder`.  When the pattern carries no statistics and the configured
default kind is not `TRIVIAL_LEFT_DEEP_TREE`, an exception is raised. -/
def build_non_prior_tree_plan_builder {Stats : Type}
    (default_tree_plan_builder : TreePlanBuilderTypes)
    (cost_model_type : TreeCostModels) (pattern : Pattern Stats) :
    Except String (Option TreePlanBuilder) :=
  match pattern.statistics with
  | none =>
      if default_tree_plan_builder = TreePlanBuilderTypes.TRIVIAL_LEFT_DEEP_TREE then
        .ok (some (TreePlanBuilder.TrivialLeftDeepTreeBuilder cost_model_type))
      else
        .error "Unknown tree plan builder type"
  | some _ => .ok none

/-- Embedding of the template method `Optimizer.build_initial_tree_plan`
(`optimizer/Optimizer.py`), generic over the concrete optimizer state `O` and its
virtual `build_new_tree_plan`.  When a non-prior builder is produced, the configured
builder is swapped out for it, the plan is built, and the original builder is swapped
back in before returning. -/
def buildInitialTreePlan {O Stats Plan : Type}
    (getBuilder : O → TreePlanBuilder) (setBuilder : O → TreePlanBuilder → O)
    (build_new_tree_plan : O → Stats → Pattern Stats → O × Plan)
    (default_tree_plan_builder : TreePlanBuilderTypes)
    (o : O) (new_statistics : Stats) (cost_model_type : TreeCostModels)
    (pattern : Pattern Stats) : Except String (O × Plan) :=
  match build_non_prior_tree_plan_builder default_tree_plan_builder cost_model_type
      pattern with
  | .error msg => .error msg
  | .ok (some non_prior_tree_plan_builder) =>
      let temp_tree_plan_builder := getBuilder o
      let o1 := setBuilder o non_prior_tree_plan_builder
      let r := build_new_tree_plan o1 new_statistics pattern
      .ok (setBuilder r.1 temp_tree_plan_builder, r.2)
  | .ok none => .ok (build_new_tree_plan o new_statistics pattern)

/-- Embedding of the `TrivialOptimizer` state (`optimizer/Optimizer.py`): only the
configured tree-plan builder inherited from `Optimizer`. -/
structure TrivialOptimizer where
  tree_plan_builder : TreePlanBuilder

/-- Embedding of `TrivialOptimizer.is_need_optimize`: always `true`, no state change. -/
def trivialIsNeedOptimize {Stats : Type} (o : TrivialOptimizer) (new_statistics : Stats)
    (pattern : Pattern Stats) : TrivialOptimizer × Bool :=
  (o, true)

/-- Embedding of `TrivialOptimizer.build_new_tree_plan`: delegates to the injected
builder's `build_tree_plan` (an abstract external function) and changes no state. -/
def trivialBuildNewTreePlan {Stats Plan : Type}
    (build_tree_plan : TreePlanBuilder → Stats → Pattern Stats → Plan)
    (o : TrivialOptimizer) (new_statistics : Stats) (pattern : Pattern Stats) :
    TrivialOptimizer × Plan :=
  (o, build_tree_plan o.tree_plan_builder new_statistics pattern)

/-- Embedding of `TrivialOptimizer`'s inherited `build_initial_tree_plan`. -/
def trivialBuildInitialTreePlan {Stats Plan : Type}
    (build_tree_plan : TreePlanBuilder → Stats → Pattern Stats → Plan)
    (default_tree_plan_builder : TreePlanBuilderTypes)
    (o : TrivialOptimizer) (new_statistics : Stats) (cost_model_type : TreeCostModels)
    (pattern : Pattern Stats) : Except String (TrivialOptimizer × Plan) :=
  buildInitialTreePlan (fun o => o.tree_plan_builder)
    (fun o b => { o with tree_plan_builder := b })
    (trivialBuildNewTreePlan build_tree_plan)
    default_tree_plan_builder o new_statistics cost_model_type pattern

/-- Embedding of a Python `dict` as an association list together with `d[k]` lookup;
`none` embeds a raised `KeyError`. -/
def dictLookup {Kind Val : Type} [DecidableEq Kind] :
    List (Kind × Val) → Kind → Option Val
  | [], _ => none
  | (k1, v) :: rest, k => if k1 = k then some v else dictLookup rest k

/-- Embedding of the `StatisticsChangesAwareOptimizer` state (`optimizer/Optimizer.py`):
the configured builder, the previous statistics snapshot (`none` embeds Python's `None`,
its initial value), and the per-kind changes-aware testers.  The tester map and the
values' `is_changed_by_t` semantics are external to the sources at hand and are kept
abstract as a total boolean function. -/
structure StatisticsChangesAwareOptimizer (Kind Val : Type) where
  tree_plan_builder : TreePlanBuilder
  prev_statistics : Option (List (Kind × Val))
  type_to_changes_aware_tester_map : Kind → Val → Val → Bool

/-- Embedding of the loop inside `StatisticsChangesAwareOptimizer.is_need_optimize`:
iterate over the new statistics items; subscripting the previous snapshot fails when it
is `None` (Python `TypeError`) or lacks the kind (Python `KeyError`) — both embedded as
`none`; otherwise return `true` as soon as one tester reports a change, else `false`. -/
def needOptimizeLoop {Kind Val : Type} [DecidableEq Kind]
    (tester : Kind → Val → Val → Bool) (prev_statistics : Option (List (Kind × Val))) :
    List (Kind × Val) → Option Bool
  | [] => some false
  | (new_statistics_type, new_statistics) :: rest =>
      match prev_statistics with
      | none => none
      | some prev =>
          match dictLookup prev new_statistics_type with
          | none => none
          | some prev_stat =>
              if tester new_statistics_type new_statistics prev_stat then some true
              else needOptimizeLoop tester prev_statistics rest

/-- Embedding of `StatisticsChangesAwareOptimizer.is_need_optimize`: runs the loop over
the new statistics items; no state is written. -/
def scaoIsNeedOptimize {Kind Val : Type} [DecidableEq Kind]
    (o : StatisticsChangesAwareOptimizer Kind Val)
    (new_statistics : List (Kind × Val)) (pattern : Pattern (List (Kind × Val))) :
    StatisticsChangesAwareOptimizer Kind Val × Option Bool :=
  (o, needOptimizeLoop o.type_to_changes_aware_tester_map o.prev_statistics
    new_statistics)

/-- Embedding of `StatisticsChangesAwareOptimizer.build_new_tree_plan`: records the new
snapshot as the previous one and delegates to the injected builder. -/
def scaoBuildNewTreePlan {Kind Val Plan : Type}
    (build_tree_plan :
      TreePlanBuilder → List (Kind × Val) → Pattern (List (Kind × Val)) → Plan)
    (o : StatisticsChangesAwareOptimizer Kind Val)
    (new_statistics : List (Kind × Val)) (pattern : Pattern (List (Kind × Val))) :
    StatisticsChangesAwareOptimizer Kind Val × Plan :=
  ({ o with prev_statistics := some new_statistics },
    build_tree_plan o.tree_plan_builder new_statistics pattern)

/-- Embedding of `StatisticsChangesAwareOptimizer`'s inherited
`build_initial_tree_plan`. -/
def scaoBuildInitialTreePlan {Kind Val Plan : Type} [DecidableEq Kind]
    (build_tree_plan :
      TreePlanBuilder → List (Kind × Val) → Pattern (List (Kind × Val)) → Plan)
    (default_tree_plan_builder : TreePlanBuilderTypes)
    (o : StatisticsChangesAwareOptimizer Kind Val)
    (new_statistics : List (Kind × Val)) (cost_model_type : TreeCostModels)
    (pattern : Pattern (List (Kind × Val))) :
    Except String (StatisticsChangesAwareOptimizer Kind Val × Plan) :=
  buildInitialTreePlan (fun o => o.tree_plan_builder)
    (fun o b => { o with tree_plan_builder := b })
    (scaoBuildNewTreePlan build_tree_plan)
    default_tree_plan_builder o new_statistics cost_model_type pattern

/-- Embedding of the `InvariantsAwareOptimizer` state (`optimizer/Optimizer.py`): the
configured builder and the currently recorded invariant set (`none` embeds Python's
`None`, its initial value).  The invariant type `I` and its violation check are external
and kept abstract. -/
structure InvariantsAwareOptimizer (I : Type) where
  tree_plan_builder : TreePlanBuilder
  invariants : Option I

/-- Embedding of `InvariantsAwareOptimizer.is_need_optimize`: `true` iff no invariant
set is recorded yet or the recorded one is violated; no state is written.  The external
`Invariants.is_invariants_violated` is passed as an abstract function. -/
def iaoIsNeedOptimize {I Stats : Type}
    (is_invariants_violated : I → Stats → Pattern Stats → Bool)
    (o : InvariantsAwareOptimizer I) (new_statistics : Stats)
    (pattern : Pattern Stats) : InvariantsAwareOptimizer I × Bool :=
  (o,
    match o.invariants with
    | none => true
    | some invariants => is_invariants_violated invariants new_statistics pattern)

/-- Embedding of `InvariantsAwareOptimizer.build_new_tree_plan`: the injected builder
returns a plan together with an invariant set, which is recorded as the current one. -/
def iaoBuildNewTreePlan {I Stats Plan : Type}
    (build_tree_plan : TreePlanBuilder → Stats → Pattern Stats → Plan × I)
    (o : InvariantsAwareOptimizer I) (new_statistics : Stats)
    (pattern : Pattern Stats) : InvariantsAwareOptimizer I × Plan :=
  let r := build_tree_plan o.tree_plan_builder new_statistics pattern
  ({ o with invariants := some r.2 }, r.1)

/-- Embedding of the override `InvariantsAwareOptimizer.build_initial_tree_plan`: when a
non-prior builder is produced, its plan is returned directly (no state touched);
otherwise it delegates to `build_new_tree_plan`.  The non-prior builder is a
`TrivialLeftDeepTreeBuilder`, whose `build_tree_plan` returns a bare plan, hence the
separate abstract function for it. -/
def iaoBuildInitialTreePlan {I Stats Plan : Type}
    (build_tree_plan_inv : TreePlanBuilder → Stats → Pattern Stats → Plan × I)
    (build_tree_plan : TreePlanBuilder → Stats → Pattern Stats → Plan)
    (default_tree_plan_builder : TreePlanBuilderTypes)
    (o : InvariantsAwareOptimizer I) (new_statistics : Stats)
    (cost_model_type : TreeCostModels) (pattern : Pattern Stats) :
    Except String (InvariantsAwareOptimizer I × Plan) :=
  match build_non_prior_tree_plan_builder default_tree_plan_builder cost_model_type
      pattern with
  | .error msg => .error msg
  | .ok (some non_prior_tree_plan_builder) =>
      .ok (o, build_tree_plan non_prior_tree_plan_builder new_statistics pattern)
  | .ok none => .ok (iaoBuildNewTreePlan build_tree_plan_inv o new_statistics pattern)

/-- Embedding of a Python value as passed for the `contiguous` argument of
`ConsumptionPolicies.__init__`: an element of the outer list is either a string (an
event name) or a nested list (a contiguous group). -/
inductive PyVal where
  | str : String → PyVal
  | list : List PyVal → PyVal

/-- Embedding of the `ConsumptionPolicies` object (`misc/ConsumptionPolicies.py`); the
`single` policy object is kept abstract. -/
structure ConsumptionPolicies (Single : Type) where
  single : Option Single
  contiguous : Option (List PyVal)
  skip : Option String

/-- Embedding of `ConsumptionPolicies.__init__`: `single` and `skip` are stored
unchanged; `contiguous` is stored unchanged unless it is a non-empty list whose first
element is a string, in which case it is wrapped in one outer list (the documented
syntactic sugar). -/
def ConsumptionPolicies.init {Single : Type} (single : Option Single)
    (contiguous : Option (List PyVal)) (skip : Option String) :
    ConsumptionPolicies Single :=
  { single := single
    contiguous :=
      match contiguous with
      | some (first :: rest) =>
          match first with
          | PyVal.str s => some [PyVal.list (PyVal.str s :: rest)]
          | PyVal.list l => some (PyVal.list l :: rest)
      | other => other
    skip := skip }

/-- Helper: every subset produced by `recursive_powerset_generator` has size at most
the given cap. -/
theorem length_le_of_mem_recursive_powerset {α : Type} (lst : List α) (cap : Int)
    (s : List α) (hs : s ∈ recursive_powerset_generator lst cap) :
    (s.length : Int) ≤ cap := by
  induction lst generalizing cap s with
  | nil =>
    unfold recursive_powerset_generator at hs
    by_cases h : (0 : Int) ≤ cap
    · rw [if_pos h] at hs
      simp only [List.mem_singleton] at hs
      subst hs
      simpa using h
    · rw [if_neg h] at hs
      simp at hs
  | cons x xs ih =>
    unfold recursive_powerset_generator at hs
    rw [List.mem_append] at hs
    rcases hs with h | h
    · exact ih _ _ h
    · rw [List.mem_map] at h
      obtain ⟨t, ht, rfl⟩ := h
      have := ih _ _ ht
      simp only [List.length_cons]
      push_cast
      omega

/-- C1: every partial-match set produced by `__create_child_matches_powerset` on a
non-empty time-ordered child store contains the last (triggering) partial match of the
store, and its size `s` satisfies `min_size ≤ s ≤ max_size` when `max_size` is set,
the effective maximum defaulting to the full child-store size when `max_size` is
unset. -/
theorem kleene_powerset_bounds {α : Type} (min_size : Nat) (max_size : Option Nat)
    (store : List α) (hne : store ≠ []) (s : List α)
    (hs : s ∈ create_child_matches_powerset min_size max_size store) :
    store.getLast hne ∈ s ∧ min_size ≤ s.length ∧
      s.length ≤ max_size.getD store.length := by
  unfold create_child_matches_powerset at hs
  rw [List.getLast?_eq_getLast store hne] at hs
  simp only [List.mem_filter, List.mem_map, decide_eq_true_eq] at hs
  obtain ⟨⟨t, ht, rfl⟩, hmin⟩ := hs
  have hlen := length_le_of_mem_recursive_powerset _ _ _ ht
  refine ⟨by simp, hmin, ?_⟩
  simp only [List.length_append, List.length_singleton]
  omega

/-- Witness for C1 at a concrete input. -/
theorem kleene_powerset_bounds_witness :
    ([1, 2, 3] : List Nat) ≠ [] ∧
      [2, 3] ∈ create_child_matches_powerset 1 (some 2) [1, 2, 3] ∧
      (([1, 2, 3] : List Nat).getLast (by decide) ∈ [2, 3] ∧
        1 ≤ ([2, 3] : List Nat).length ∧
        ([2, 3] : List Nat).length ≤ (some 2).getD ([1, 2, 3] : List Nat).length) :=
  ⟨by decide, by decide,
    kleene_powerset_bounds 1 (some 2) [1, 2, 3] (by decide) [2, 3] (by decide)⟩

/-- C2: on the time-ordered child store `[m1, m2, m3]` (with `m3` the newly arrived
match) and bounds `min_size = 1`, `max_size = 2`, the generator produces exactly the
sets `{m3}`, `{m1, m3}`, `{m2, m3}`; in particular neither `{m1, m2}` nor
`{m1, m2, m3}` is produced. -/
theorem kleene_completeness_example :
    create_child_matches_powerset 1 (some 2) [1, 2, 3] = [[3], [2, 3], [1, 3]] ∧
      [1, 2] ∉ create_child_matches_powerset 1 (some 2) [1, 2, 3] ∧
      [1, 2, 3] ∉ create_child_matches_powerset 1 (some 2) [1, 2, 3] := by
  decide

/-- C8: `handle_new_partial_match` on a `KleeneClosureNode` whose child reference is
absent raises an exception before performing any other action: no partial match is
generated, stored, or propagated (the error result carries no new state and no
propagated sets). -/
theorem kleene_no_child_error {Ev : Type} (node : KleeneClosureNode Ev)
    (h : node.child = none) : handle_new_partial_match node = .error "" := by
  unfold handle_new_partial_match
  rw [h]

/-- Witness for C8 at a concrete node. -/
theorem kleene_no_child_error_witness :
    (⟨10, 1, none, fun _ => true, none⟩ : KleeneClosureNode Nat).child = none ∧
      handle_new_partial_match
        (⟨10, 1, none, fun _ => true, none⟩ : KleeneClosureNode Nat) = .error "" :=
  ⟨rfl, kleene_no_child_error _ rfl⟩

/-- C9: the `ConsumptionPolicies` constructor stores, as the `contiguous` attribute,
the singleton group `[contiguous]` when the argument is a non-empty list whose first
element is a string, and the argument unchanged for every other value (`None`, the
empty list, or a list of lists). -/
theorem consumption_policies_contiguous_normalization {Single : Type}
    (single : Option Single) (skip_name : Option String) (s : String)
    (rest : List PyVal) (g : List PyVal) (grest : List PyVal) :
    (ConsumptionPolicies.init single (some (PyVal.str s :: rest)) skip_name).contiguous
        = some [PyVal.list (PyVal.str s :: rest)] ∧
      (@ConsumptionPolicies.init Single single none skip_name).contiguous = none ∧
      (@ConsumptionPolicies.init Single single (some []) skip_name).contiguous
        = some [] ∧
      (@ConsumptionPolicies.init Single single (some (PyVal.list g :: grest))
        skip_name).contiguous = some (PyVal.list g :: grest) :=
  ⟨rfl, rfl, rfl, rfl⟩

/-- C7: when the pattern carries no statistics and the configured default tree-plan
builder kind is not `TRIVIAL_LEFT_DEEP_TREE`, `build_non_prior_tree_plan_builder`
raises a configuration error rather than silently falling back; when the pattern's
statistics are present it returns no substitute builder. -/
theorem non_prior_builder_config_error {Stats : Type}
    (default_kind : TreePlanBuilderTypes) (cost_model_type : TreeCostModels)
    (stats : Stats)
    (hkind : default_kind ≠ TreePlanBuilderTypes.TRIVIAL_LEFT_DEEP_TREE) :
    build_non_prior_tree_plan_builder default_kind cost_model_type
        (⟨none⟩ : Pattern Stats) = .error "Unknown tree plan builder type" ∧
      build_non_prior_tree_plan_builder default_kind cost_model_type
        (⟨some stats⟩ : Pattern Stats) = .ok none := by
  constructor
  · unfold build_non_prior_tree_plan_builder
    simp [hkind]
  · rfl

/-- Witness for C7 at a concrete configuration. -/
theorem non_prior_builder_config_error_witness :
    TreePlanBuilderTypes.OTHER_BUILDER_TYPE 0
        ≠ TreePlanBuilderTypes.TRIVIAL_LEFT_DEEP_TREE ∧
      (build_non_prior_tree_plan_builder (TreePlanBuilderTypes.OTHER_BUILDER_TYPE 0)
          TreeCostModels.INTERMEDIATE_RESULTS_TREE_COST_MODEL
          (⟨none⟩ : Pattern Nat) = .error "Unknown tree plan builder type" ∧
        build_non_prior_tree_plan_builder (TreePlanBuilderTypes.OTHER_BUILDER_TYPE 0)
          TreeCostModels.INTERMEDIATE_RESULTS_TREE_COST_MODEL
          (⟨some 7⟩ : Pattern Nat) = .ok none) :=
  ⟨by decide,
    non_prior_builder_config_error (TreePlanBuilderTypes.OTHER_BUILDER_TYPE 0)
      TreeCostModels.INTERMEDIATE_RESULTS_TREE_COST_MODEL 7 (by decide)⟩
/-- Helper: with pairwise-distinct keys, looking up the key of any entry of the dict
returns that entry's value. -/
theorem dictLookup_self {Kind Val : Type} [DecidableEq Kind]
    (l : List (Kind × Val)) (hnodup : (l.map Prod.fst).Nodup) :
    ∀ p ∈ l, dictLookup l p.1 = some p.2 := by
  induction l with
  | nil => intro p hp; simp at hp
  | cons q rest ih =>
    obtain ⟨k, v⟩ := q
    rw [List.map_cons, List.nodup_cons] at hnodup
    intro p hp
    rcases List.mem_cons.mp hp with rfl | hmem
    · unfold dictLookup
      simp
    · unfold dictLookup
      have hne : k ≠ p.1 := by
        intro hEq
        refine hnodup.1 ?_
        rw [hEq]
        exact List.mem_map.mpr ⟨p, hmem, rfl⟩
      rw [if_neg hne]
      exact ih hnodup.2 p hmem

/-- Helper: unfolding equation for the decision loop on a non-empty item list with a
present previous snapshot. -/
theorem needOptimizeLoop_cons {Kind Val : Type} [DecidableEq Kind]
    (tester : Kind → Val → Val → Bool) (prev : List (Kind × Val)) (k : Kind) (v : Val)
    (rest : List (Kind × Val)) :
    needOptimizeLoop tester (some prev) ((k, v) :: rest) =
      match dictLookup prev k with
      | none => none
      | some prev_stat =>
          if tester k v prev_stat then some true
          else needOptimizeLoop tester (some prev) rest := rfl

/-- Helper: unfolding equation for the decision loop when the head kind is found in the
previous snapshot. -/
theorem needOptimizeLoop_cons_found {Kind Val : Type} [DecidableEq Kind]
    (tester : Kind → Val → Val → Bool) (prev : List (Kind × Val)) (k : Kind) (v : Val)
    (rest : List (Kind × Val)) (pv : Val) (hpv : dictLookup prev k = some pv) :
    needOptimizeLoop tester (some prev) ((k, v) :: rest) =
      if tester k v pv then some true
      else needOptimizeLoop tester (some prev) rest := by
  rw [needOptimizeLoop_cons, hpv]

/-- Helper: when the previous snapshot covers every kind appearing in the new
statistics, the decision loop cannot fail. -/
theorem needOptimizeLoop_isSome {Kind Val : Type} [DecidableEq Kind]
    (tester : Kind → Val → Val → Bool) (prev : List (Kind × Val))
    (l : List (Kind × Val)) (hcov : ∀ p ∈ l, (dictLookup prev p.1).isSome) :
    (needOptimizeLoop tester (some prev) l).isSome := by
  induction l with
  | nil => rfl
  | cons q rest ih =>
    obtain ⟨k, v⟩ := q
    have h0 : (dictLookup prev k).isSome := hcov (k, v) (List.mem_cons_self _ _)
    obtain ⟨pv, hpv⟩ := Option.isSome_iff_exists.mp h0
    rw [needOptimizeLoop_cons_found tester prev k v rest pv hpv]
    by_cases ht : tester k v pv = true
    · rw [if_pos ht]
      rfl
    · rw [if_neg ht]
      exact ih (fun p hp => hcov p (List.mem_cons_of_mem _ hp))

/-- Helper: when the previous snapshot covers every kind appearing in the new
statistics, the decision loop answers `true` exactly when some new statistic is judged
changed against its previous value. -/
theorem needOptimizeLoop_eq_true_iff {Kind Val : Type} [DecidableEq Kind]
    (tester : Kind → Val → Val → Bool) (prev : List (Kind × Val))
    (l : List (Kind × Val)) (hcov : ∀ p ∈ l, (dictLookup prev p.1).isSome) :
    needOptimizeLoop tester (some prev) l = some true ↔
      ∃ p ∈ l, ∃ pv, dictLookup prev p.1 = some pv ∧ tester p.1 p.2 pv = true := by
  induction l with
  | nil => simp [needOptimizeLoop]
  | cons q rest ih =>
    obtain ⟨k, v⟩ := q
    have h0 : (dictLookup prev k).isSome := hcov (k, v) (List.mem_cons_self _ _)
    obtain ⟨pv, hpv⟩ := Option.isSome_iff_exists.mp h0
    have ihr := ih (fun p hp => hcov p (List.mem_cons_of_mem _ hp))
    rw [needOptimizeLoop_cons_found tester prev k v rest pv hpv]
    by_cases ht : tester k v pv = true
    · rw [if_pos ht]
      constructor
      · intro _
        exact ⟨(k, v), List.mem_cons_self _ _, pv, hpv, ht⟩
      · intro _
        rfl
    · rw [if_neg ht, ihr]
      constructor
      · rintro ⟨p, hp, pv1, hpv1, htest⟩
        exact ⟨p, List.mem_cons_of_mem _ hp, pv1, hpv1, htest⟩
      · rintro ⟨p, hp, pv1, hpv1, htest⟩
        rcases List.mem_cons.mp hp with rfl | hmem
        · have hk : dictLookup prev k = some pv1 := hpv1
          rw [hpv] at hk
          cases hk
          exact absurd htest ht
        · exact ⟨p, hmem, pv1, hpv1, htest⟩

/-- Helper: against a previous snapshot that maps every kind of `l` to exactly the
value `l` carries for it, an irreflexive tester family makes the loop answer
`some false`. -/
theorem needOptimizeLoop_self_false {Kind Val : Type} [DecidableEq Kind]
    (tester : Kind → Val → Val → Bool) (prev : List (Kind × Val))
    (l : List (Kind × Val)) (hirr : ∀ k v, tester k v v = false)
    (hself : ∀ p ∈ l, dictLookup prev p.1 = some p.2) :
    needOptimizeLoop tester (some prev) l = some false := by
  induction l with
  | nil => rfl
  | cons q rest ih =>
    obtain ⟨k, v⟩ := q
    have hk : dictLookup prev k = some v := hself (k, v) (List.mem_cons_self _ _)
    rw [needOptimizeLoop_cons_found tester prev k v rest v hk]
    have ht : ¬ tester k v v = true := by
      rw [hirr k v]
      exact Bool.false_ne_true
    rw [if_neg ht]
    exact ih (fun p hp => hself p (List.mem_cons_of_mem _ hp))

/-- C3: for a `StatisticsChangesAwareOptimizer` whose recorded previous snapshot covers
every kind of the new statistics, `is_need_optimize` answers `true` iff at least one
statistic kind's value is judged changed by more than factor t by that kind's
`is_changed_by_t` tester; moreover, with testers that judge identical values unchanged
(identical values never differ by more than a factor), feeding the very snapshot
recorded by the last `build_new_tree_plan` call again yields `false`. -/
theorem scao_is_need_optimize_iff {Kind Val Plan : Type} [DecidableEq Kind]
    (tester : Kind → Val → Val → Bool) (b : TreePlanBuilder)
    (build_tree_plan :
      TreePlanBuilder → List (Kind × Val) → Pattern (List (Kind × Val)) → Plan)
    (prev_opt : Option (List (Kind × Val))) (prevS newS : List (Kind × Val))
    (pattern1 pattern2 : Pattern (List (Kind × Val)))
    (hcov : ∀ p ∈ newS, (dictLookup prevS p.1).isSome)
    (hirr : ∀ k v, tester k v v = false)
    (hnodup : (newS.map Prod.fst).Nodup) :
    ((scaoIsNeedOptimize ⟨b, some prevS, tester⟩ newS pattern1).2 = some true ↔
      ∃ p ∈ newS, ∃ pv, dictLookup prevS p.1 = some pv ∧ tester p.1 p.2 pv = true) ∧
      (scaoIsNeedOptimize
        (scaoBuildNewTreePlan build_tree_plan ⟨b, prev_opt, tester⟩ newS pattern2).1
        newS pattern1).2 = some false := by
  constructor
  · exact needOptimizeLoop_eq_true_iff tester prevS newS hcov
  · exact needOptimizeLoop_self_false tester newS newS hirr (dictLookup_self newS hnodup)

/-- Witness for C3 at a concrete optimizer and snapshot. -/
theorem scao_is_need_optimize_iff_witness :
    ((scaoIsNeedOptimize
        ⟨TreePlanBuilder.other_builder 0, some [(0, 5)], fun _ a b => a != b⟩ [(0, 6)]
        (⟨none⟩ : Pattern (List (Nat × Nat)))).2 = some true ↔
      ∃ p ∈ [((0 : Nat), (6 : Nat))], ∃ pv,
        dictLookup [((0 : Nat), (5 : Nat))] p.1 = some pv ∧
          (fun (_ : Nat) (a b : Nat) => a != b) p.1 p.2 pv = true) ∧
      (scaoIsNeedOptimize
        (scaoBuildNewTreePlan (fun _ _ _ => (0 : Nat))
          ⟨TreePlanBuilder.other_builder 0, none, fun _ a b => a != b⟩ [(0, 6)]
          ⟨none⟩).1 [(0, 6)] ⟨none⟩).2 = some false :=
  scao_is_need_optimize_iff (fun _ a b => a != b) (TreePlanBuilder.other_builder 0)
    (fun _ _ _ => (0 : Nat)) none [(0, 5)] [(0, 6)] ⟨none⟩ ⟨none⟩ (by decide)
    (by intro k v; simp) (by decide)

/-- C10: a `StatisticsChangesAwareOptimizer` on which `build_new_tree_plan` has never
been called still holds `None` as the previous snapshot, so `is_need_optimize` on any
non-empty statistics mapping fails (subscripting `None`) instead of returning a
boolean; after one `build_new_tree_plan` call whose snapshot covers every kind of the
new statistics, the failure branch is unreachable and a boolean is returned. -/
theorem scao_prev_none_fails {Kind Val Plan : Type} [DecidableEq Kind]
    (tester : Kind → Val → Val → Bool) (b : TreePlanBuilder)
    (build_tree_plan :
      TreePlanBuilder → List (Kind × Val) → Pattern (List (Kind × Val)) → Plan)
    (snapshot newS : List (Kind × Val))
    (pattern1 pattern2 : Pattern (List (Kind × Val)))
    (hne : newS ≠ [])
    (hcov : ∀ p ∈ newS, (dictLookup snapshot p.1).isSome) :
    (scaoIsNeedOptimize ⟨b, none, tester⟩ newS pattern1).2 = none ∧
      ((scaoIsNeedOptimize
          (scaoBuildNewTreePlan build_tree_plan ⟨b, none, tester⟩ snapshot pattern2).1
          newS pattern1).2).isSome := by
  constructor
  · cases newS with
    | nil => exact absurd rfl hne
    | cons q rest =>
      obtain ⟨k, v⟩ := q
      rfl
  · exact needOptimizeLoop_isSome tester snapshot newS hcov

/-- Witness for C10 at a concrete optimizer and snapshot. -/
theorem scao_prev_none_fails_witness :
    (scaoIsNeedOptimize
        (⟨TreePlanBuilder.other_builder 0, none, fun _ a b => a != b⟩ :
          StatisticsChangesAwareOptimizer Nat Nat) [(0, 6)]
        (⟨none⟩ : Pattern (List (Nat × Nat)))).2 = none ∧
      ((scaoIsNeedOptimize
          (scaoBuildNewTreePlan (fun _ _ _ => (0 : Nat))
            ⟨TreePlanBuilder.other_builder 0, none, fun _ a b => a != b⟩ [(0, 5)]
            ⟨none⟩).1 [(0, 6)] ⟨none⟩).2).isSome :=
  scao_prev_none_fails (fun _ a b => a != b) (TreePlanBuilder.other_builder 0)
    (fun _ _ _ => (0 : Nat)) [(0, 5)] [(0, 6)] ⟨none⟩ ⟨none⟩ (by decide) (by decide)

/-- C5: `InvariantsAwareOptimizer.is_need_optimize` answers `true` iff no invariant set
has been recorded yet or the recorded invariant set is violated by the new statistics
and pattern; and the invariant set recorded by `build_new_tree_plan` is exactly the one
the injected builder returns alongside the plan. -/
theorem iao_is_need_optimize_iff {I Stats Plan : Type}
    (is_invariants_violated : I → Stats → Pattern Stats → Bool)
    (build_tree_plan : TreePlanBuilder → Stats → Pattern Stats → Plan × I)
    (o : InvariantsAwareOptimizer I) (new_statistics : Stats)
    (pattern : Pattern Stats) :
    ((iaoIsNeedOptimize is_invariants_violated o new_statistics pattern).2 = true ↔
      o.invariants = none ∨ ∃ invariants, o.invariants = some invariants ∧
        is_invariants_violated invariants new_statistics pattern = true) ∧
      (iaoBuildNewTreePlan build_tree_plan o new_statistics pattern).1.invariants =
        some (build_tree_plan o.tree_plan_builder new_statistics pattern).2 := by
  constructor
  · cases h : o.invariants with
    | none => simp [iaoIsNeedOptimize, h]
    | some invariants => simp [iaoIsNeedOptimize, h]
  · rfl

/-- C6 counterexample: `is_need_optimize` does not return a boolean on every input —
a `StatisticsChangesAwareOptimizer` with no recorded previous snapshot fails on a
non-empty statistics mapping (the embedded result `none` is the raised exception). -/
theorem is_need_optimize_returns_bool_counterexample :
    (scaoIsNeedOptimize
      (⟨TreePlanBuilder.other_builder 0, none, fun _ _ _ => false⟩ :
        StatisticsChangesAwareOptimizer Nat Nat) [(0, 0)]
      (⟨none⟩ : Pattern (List (Nat × Nat)))).2 = none := rfl

/-- C6 (amended): `is_need_optimize` never mutates optimizer state — on every variant
and every input, including the StatisticsChangesAware failure inputs with no recorded
previous snapshot, the configured tree-plan builder, the stored previous snapshot and
the stored invariant set are all unchanged by the call — and it returns a boolean
except in the StatisticsChangesAware failure case above: whenever a recorded snapshot
covering every queried kind is held, the StatisticsChangesAware variant does return a
boolean. -/
theorem is_need_optimize_no_mutation {Kind Val I Stats : Type} [DecidableEq Kind]
    (o1 : TrivialOptimizer) (st1 : Stats) (p1 : Pattern Stats)
    (o2 : StatisticsChangesAwareOptimizer Kind Val) (st2 : List (Kind × Val))
    (p2 : Pattern (List (Kind × Val)))
    (is_invariants_violated : I → Stats → Pattern Stats → Bool)
    (o3 : InvariantsAwareOptimizer I) (st3 : Stats) (p3 : Pattern Stats) :
    (trivialIsNeedOptimize o1 st1 p1).1 = o1 ∧
      (scaoIsNeedOptimize o2 st2 p2).1 = o2 ∧
      (iaoIsNeedOptimize is_invariants_violated o3 st3 p3).1 = o3 ∧
      (∀ prevS : List (Kind × Val), o2.prev_statistics = some prevS →
        (∀ p ∈ st2, (dictLookup prevS p.1).isSome) →
        ((scaoIsNeedOptimize o2 st2 p2).2).isSome) := by
  refine ⟨rfl, rfl, rfl, ?_⟩
  intro prevS hprev hcov
  show (needOptimizeLoop o2.type_to_changes_aware_tester_map o2.prev_statistics
    st2).isSome
  rw [hprev]
  exact needOptimizeLoop_isSome _ _ _ hcov

/-- Witness for the amended C6 at concrete optimizers, exercising the no-mutation
conjunct both at a StatisticsChangesAware state with no recorded snapshot (a failure
input) and at one holding a covering snapshot, where the boolean return is also
exercised. -/
theorem is_need_optimize_no_mutation_witness :
    (trivialIsNeedOptimize ⟨TreePlanBuilder.other_builder 0⟩ (1 : Nat)
        (⟨none⟩ : Pattern Nat)).1 = ⟨TreePlanBuilder.other_builder 0⟩ ∧
      (scaoIsNeedOptimize
          (⟨TreePlanBuilder.other_builder 0, none, fun _ a b => a != b⟩ :
            StatisticsChangesAwareOptimizer Nat Nat) [(0, 6)]
          (⟨none⟩ : Pattern (List (Nat × Nat)))).1 =
        ⟨TreePlanBuilder.other_builder 0, none, fun _ a b => a != b⟩ ∧
      (scaoIsNeedOptimize
          (⟨TreePlanBuilder.other_builder 0, some [(0, 5)], fun _ a b => a != b⟩ :
            StatisticsChangesAwareOptimizer Nat Nat) [(0, 6)]
          (⟨none⟩ : Pattern (List (Nat × Nat)))).1 =
        ⟨TreePlanBuilder.other_builder 0, some [(0, 5)], fun _ a b => a != b⟩ ∧
      (iaoIsNeedOptimize (fun (_ : Nat) (_ : Nat) (_ : Pattern Nat) => true)
          (⟨TreePlanBuilder.other_builder 0, none⟩ : InvariantsAwareOptimizer Nat)
          (1 : Nat) (⟨none⟩ : Pattern Nat)).1 =
        ⟨TreePlanBuilder.other_builder 0, none⟩ ∧
      ((scaoIsNeedOptimize
          (⟨TreePlanBuilder.other_builder 0, some [(0, 5)], fun _ a b => a != b⟩ :
            StatisticsChangesAwareOptimizer Nat Nat) [(0, 6)]
          (⟨none⟩ : Pattern (List (Nat × Nat)))).2).isSome := by
  have h1 := is_need_optimize_no_mutation ⟨TreePlanBuilder.other_builder 0⟩ (1 : Nat)
    (⟨none⟩ : Pattern Nat)
    (⟨TreePlanBuilder.other_builder 0, some [(0, 5)], fun _ a b => a != b⟩ :
      StatisticsChangesAwareOptimizer Nat Nat) [(0, 6)]
    (⟨none⟩ : Pattern (List (Nat × Nat)))
    (fun (_ : Nat) (_ : Nat) (_ : Pattern Nat) => true)
    (⟨TreePlanBuilder.other_builder 0, none⟩ : InvariantsAwareOptimizer Nat) (1 : Nat)
    (⟨none⟩ : Pattern Nat)
  have h2 := is_need_optimize_no_mutation ⟨TreePlanBuilder.other_builder 0⟩ (1 : Nat)
    (⟨none⟩ : Pattern Nat)
    (⟨TreePlanBuilder.other_builder 0, none, fun _ a b => a != b⟩ :
      StatisticsChangesAwareOptimizer Nat Nat) [(0, 6)]
    (⟨none⟩ : Pattern (List (Nat × Nat)))
    (fun (_ : Nat) (_ : Nat) (_ : Pattern Nat) => true)
    (⟨TreePlanBuilder.other_builder 0, none⟩ : InvariantsAwareOptimizer Nat) (1 : Nat)
    (⟨none⟩ : Pattern Nat)
  exact ⟨h1.1, h2.2.1, h1.2.1, h1.2.2.1, h1.2.2.2 [(0, 5)] rfl (by decide)⟩

/-- C4: with `pattern.statistics = None` and the configured default builder kind
(`TRIVIAL_LEFT_DEEP_TREE`), `build_initial_tree_plan` on every optimizer variant builds
the plan with the default non-prior builder (`TrivialLeftDeepTreeBuilder`) and leaves
the optimizer's configured tree-plan builder exactly as it was before the call (the
substitution is never permanent; only the StatisticsChangesAware variant's previous
snapshot is updated, by the inner `build_new_tree_plan`). -/
theorem build_initial_tree_plan_fallback {Kind Val I Stats PlanA PlanB PlanC : Type}
    [DecidableEq Kind]
    (buildA : TreePlanBuilder → Stats → Pattern Stats → PlanA)
    (buildB :
      TreePlanBuilder → List (Kind × Val) → Pattern (List (Kind × Val)) → PlanB)
    (buildC : TreePlanBuilder → Stats → Pattern Stats → PlanC)
    (buildCInv : TreePlanBuilder → Stats → Pattern Stats → PlanC × I)
    (o1 : TrivialOptimizer) (o2 : StatisticsChangesAwareOptimizer Kind Val)
    (o3 : InvariantsAwareOptimizer I)
    (newA : Stats) (newB : List (Kind × Val)) (cost_model_type : TreeCostModels)
    (patA : Pattern Stats) (patB : Pattern (List (Kind × Val)))
    (hA : patA.statistics = none) (hB : patB.statistics = none) :
    trivialBuildInitialTreePlan buildA DEFAULT_TREE_PLAN_BUILDER o1 newA
        cost_model_type patA =
      .ok (o1,
        buildA (TreePlanBuilder.TrivialLeftDeepTreeBuilder cost_model_type) newA
          patA) ∧
      scaoBuildInitialTreePlan buildB DEFAULT_TREE_PLAN_BUILDER o2 newB
          cost_model_type patB =
        .ok ({ o2 with prev_statistics := some newB },
          buildB (TreePlanBuilder.TrivialLeftDeepTreeBuilder cost_model_type) newB
            patB) ∧
      iaoBuildInitialTreePlan buildCInv buildC DEFAULT_TREE_PLAN_BUILDER o3 newA
          cost_model_type patA =
        .ok (o3,
          buildC (TreePlanBuilder.TrivialLeftDeepTreeBuilder cost_model_type) newA
            patA) := by
  obtain ⟨sA⟩ := patA
  obtain ⟨sB⟩ := patB
  have hA1 : sA = none := hA
  have hB1 : sB = none := hB
  subst hA1
  subst hB1
  exact ⟨rfl, rfl, rfl⟩

/-- Witness for C4 at concrete optimizers and a statistics-free pattern. -/
theorem build_initial_tree_plan_fallback_witness :
    trivialBuildInitialTreePlan (fun b s p => b) DEFAULT_TREE_PLAN_BUILDER
        ⟨TreePlanBuilder.other_builder 3⟩ (1 : Nat)
        TreeCostModels.INTERMEDIATE_RESULTS_TREE_COST_MODEL (⟨none⟩ : Pattern Nat) =
      .ok (⟨TreePlanBuilder.other_builder 3⟩,
        TreePlanBuilder.TrivialLeftDeepTreeBuilder
          TreeCostModels.INTERMEDIATE_RESULTS_TREE_COST_MODEL) ∧
      scaoBuildInitialTreePlan (fun b s p => b) DEFAULT_TREE_PLAN_BUILDER
          (⟨TreePlanBuilder.other_builder 3, none, fun _ a b => a != b⟩ :
            StatisticsChangesAwareOptimizer Nat Nat) [(0, 5)]
          TreeCostModels.INTERMEDIATE_RESULTS_TREE_COST_MODEL ⟨none⟩ =
        .ok (⟨TreePlanBuilder.other_builder 3, some [(0, 5)], fun _ a b => a != b⟩,
          TreePlanBuilder.TrivialLeftDeepTreeBuilder
            TreeCostModels.INTERMEDIATE_RESULTS_TREE_COST_MODEL) ∧
      iaoBuildInitialTreePlan (fun b s p => (b, 0)) (fun b s p => b)
          DEFAULT_TREE_PLAN_BUILDER
          (⟨TreePlanBuilder.other_builder 3, none⟩ : InvariantsAwareOptimizer Nat)
          (1 : Nat) TreeCostModels.INTERMEDIATE_RESULTS_TREE_COST_MODEL ⟨none⟩ =
        .ok (⟨TreePlanBuilder.other_builder 3, none⟩,
          TreePlanBuilder.TrivialLeftDeepTreeBuilder
            TreeCostModels.INTERMEDIATE_RESULTS_TREE_COST_MODEL) :=
  build_initial_tree_plan_fallback (fun b s p => b) (fun b s p => b) (fun b s p => b)
    (fun b s p => (b, 0)) ⟨TreePlanBuilder.other_builder 3⟩
    ⟨TreePlanBuilder.other_builder 3, none, fun _ a b => a != b⟩
    ⟨TreePlanBuilder.other_builder 3, none⟩ 1 [(0, 5)]
    TreeCostModels.INTERMEDIATE_RESULTS_TREE_COST_MODEL ⟨none⟩ ⟨none⟩ rfl rfl

end OpenCEP
